import Mathlib

/-!
# Verification of `support_ticket.py`

A shallow embedding of the single-module program `support_ticket.py`
(a CLI that sends a templated support-request e-mail over SMTP) together
with proofs about its behaviour.

The embedding models:

* CPython `str.replace` (for non-empty patterns, the only patterns the
  program uses) as a character-list scan `listReplace`;
* the environment, the file system and the SMTP server as explicit
  inputs (association lists / an outcome oracle), with the I/O actions
  the program performs recorded in an event trace;
* Python exceptions as an explicit error type `PyError`, letting
  `except KeyError` (in `_get_env_variables`), `except Exception` (in
  `create`) and `except BaseSupportTicketException` (in `main`) be
  modelled faithfully as matches on the error value.
-/

namespace SupportTicket

/-! ## CPython `str.replace` for non-empty patterns

`support_ticket.py` line 47-49 calls `str.replace` twice, always with the
non-empty literal patterns `"STORE_NUMBER"` and `"SUPPORT_MESSAGE"`.
CPython scans the subject left to right and rewrites each leftmost
non-overlapping occurrence of the pattern.  The recursion consumes either
one character or one whole pattern occurrence per step, so we index it by
a fuel equal to the subject length; this keeps the definition structural
and hence evaluable by `decide`. -/

/-- One scan step of CPython `str.replace` with explicit fuel. -/
def listReplaceFuel (pat rep : List Char) : Nat → List Char → List Char
  | 0, s => s
  | _ + 1, [] => []
  | fuel + 1, c :: rest =>
    if pat ≠ [] ∧ pat.isPrefixOf (c :: rest) then
      rep ++ listReplaceFuel pat rep fuel ((c :: rest).drop pat.length)
    else
      c :: listReplaceFuel pat rep fuel rest

/-- CPython `s.replace(pat, rep)` on character lists, for non-empty `pat`
(an empty pattern is never passed by the program). -/
def listReplace (pat rep s : List Char) : List Char :=
  listReplaceFuel pat rep s.length s

theorem listReplaceFuel_fuel_irrel (pat rep : List Char) :
    ∀ (n m : Nat) (s : List Char), s.length ≤ n → s.length ≤ m →
      listReplaceFuel pat rep n s = listReplaceFuel pat rep m s := by
  intro n
  induction n with
  | zero =>
    intro m s hn _
    have hs : s = [] := List.eq_nil_of_length_eq_zero (Nat.le_zero.mp hn)
    subst hs
    cases m <;> rfl
  | succ n ih =>
    intro m s hn hm
    cases m with
    | zero =>
      have hs : s = [] := List.eq_nil_of_length_eq_zero (Nat.le_zero.mp hm)
      subst hs
      rfl
    | succ m =>
      cases s with
      | nil => rfl
      | cons c rest =>
        by_cases h : pat ≠ [] ∧ pat.isPrefixOf (c :: rest)
        · have hpat : 0 < pat.length := List.length_pos.mpr h.1
          have hlen : ((c :: rest).drop pat.length).length ≤ n := by
            simp only [List.length_drop, List.length_cons]
            simp only [List.length_cons] at hn
            omega
          have hlen' : ((c :: rest).drop pat.length).length ≤ m := by
            simp only [List.length_drop, List.length_cons]
            simp only [List.length_cons] at hm
            omega
          simp only [listReplaceFuel, if_pos h, ih _ _ hlen hlen']
        · have hlen : rest.length ≤ n := by
            simp only [List.length_cons] at hn; omega
          have hlen' : rest.length ≤ m := by
            simp only [List.length_cons] at hm; omega
          simp only [listReplaceFuel, if_neg h, ih _ _ hlen hlen']

theorem listReplace_nil (pat rep : List Char) : listReplace pat rep [] = [] := rfl

theorem listReplace_cons_pos (pat rep : List Char) (c : Char) (rest : List Char)
    (h : pat ≠ []) (hp : pat.isPrefixOf (c :: rest)) :
    listReplace pat rep (c :: rest) =
      rep ++ listReplace pat rep ((c :: rest).drop pat.length) := by
  have hpat : 0 < pat.length := List.length_pos.mpr h
  show listReplaceFuel pat rep (c :: rest).length (c :: rest) = _
  have : (c :: rest).length = rest.length + 1 := rfl
  rw [this]
  simp only [listReplaceFuel, if_pos (And.intro h hp)]
  congr 1
  apply listReplaceFuel_fuel_irrel
  · simp only [List.length_drop, List.length_cons]; omega
  · exact Nat.le_refl _

theorem listReplace_cons_neg (pat rep : List Char) (c : Char) (rest : List Char)
    (h : ¬(pat ≠ [] ∧ pat.isPrefixOf (c :: rest))) :
    listReplace pat rep (c :: rest) = c :: listReplace pat rep rest := by
  show listReplaceFuel pat rep (c :: rest).length (c :: rest) = _
  have : (c :: rest).length = rest.length + 1 := rfl
  rw [this]
  simp only [listReplaceFuel, if_neg h]
  rfl

/-! ## Occurrences and boundary-safety of replacements -/

/-- All suffixes of a character list, longest first. -/
def suffixes : List Char → List (List Char)
  | [] => [[]]
  | c :: rest => (c :: rest) :: suffixes rest

/-- `containsSeq pat s = true` iff `pat` occurs as a contiguous substring
of `s` (the Python `pat in s` test, used to state occurrence claims). -/
def containsSeq (pat s : List Char) : Bool :=
  (suffixes s).any fun t => pat.isPrefixOf t

/-- `crossFree pat xs ys = true` iff no occurrence of `pat` starts inside
`xs` when `xs` is followed by `ys`.  This is the condition under which
the replace scan passes `xs` through untouched. -/
def crossFree (pat xs ys : List Char) : Bool :=
  (suffixes xs).all fun t => t.isEmpty || !(pat.isPrefixOf (t ++ ys))

theorem crossFree_cons (pat : List Char) (c : Char) (xs ys : List Char)
    (h : crossFree pat (c :: xs) ys = true) :
    (pat.isPrefixOf (c :: (xs ++ ys)) = false) ∧ crossFree pat xs ys = true := by
  simp only [crossFree, suffixes, List.all_cons, Bool.and_eq_true] at h
  obtain ⟨h1, h2⟩ := h
  constructor
  · simp only [List.isEmpty, Bool.false_or, List.cons_append] at h1
    simp only [Bool.not_eq_true', List.cons_append] at h1
    exact h1
  · exact h2

/-- A stretch of the subject in which no pattern occurrence starts is
passed through unchanged by the replace scan. -/
theorem listReplace_append_of_crossFree (pat rep : List Char) :
    ∀ (xs ys : List Char), crossFree pat xs ys = true →
      listReplace pat rep (xs ++ ys) = xs ++ listReplace pat rep ys := by
  intro xs
  induction xs with
  | nil => intro ys _; simp
  | cons c xs ih =>
    intro ys h
    obtain ⟨h1, h2⟩ := crossFree_cons pat c xs ys h
    rw [List.cons_append, listReplace_cons_neg]
    · rw [ih ys h2, List.cons_append]
    · intro hcontra
      rw [h1] at hcontra
      exact Bool.false_ne_true hcontra.2

/-- The replace scan rewrites a pattern occurrence sitting at the front of
the subject. -/
theorem listReplace_pat_prefix (pat rep : List Char) (h : pat ≠ []) :
    ∀ ys, listReplace pat rep (pat ++ ys) = rep ++ listReplace pat rep ys := by
  intro ys
  obtain ⟨c, pt, hpat⟩ := List.exists_cons_of_ne_nil h
  have hp : pat.isPrefixOf (pat ++ ys) :=
    List.isPrefixOf_iff_prefix.mpr (List.prefix_append pat ys)
  have hcons : pat ++ ys = c :: (pt ++ ys) := by rw [hpat]; rfl
  rw [hcons] at hp ⊢
  rw [listReplace_cons_pos pat rep c (pt ++ ys) h hp]
  congr 1
  rw [← hcons, List.drop_left]

/-! ## Structured templates

To state where the tokens "occurred in the template", a template is
presented as a list of parts: literal text, the `STORE_NUMBER` token, or
the `SUPPORT_MESSAGE` token.  Each replace pass sees the flattened text
through a list of segments: chunks the scan should pass through and
occurrences of the pass's own pattern. -/

/-- A segment of the subject of one replace pass: either a chunk the scan
should pass through, or an occurrence of the pass's pattern. -/
inductive Seg where
  | chunk (l : List Char)
  | tok
deriving DecidableEq

/-- The subject text described by a segment list (`tok` stands for the
pattern). -/
def flattenSeg (pat : List Char) : List Seg → List Char
  | [] => []
  | .chunk l :: rest => l ++ flattenSeg pat rest
  | .tok :: rest => pat ++ flattenSeg pat rest

/-- The intended result of the pass: each `tok` rewritten to `rep`. -/
def renderSeg (rep : List Char) : List Seg → List Char
  | [] => []
  | .chunk l :: rest => l ++ renderSeg rep rest
  | .tok :: rest => rep ++ renderSeg rep rest

/-- Boundary safety of a segment list for a pass: no pattern occurrence
starts inside any chunk (taking the following text into account), so the
scan's leftmost-match discipline rewrites exactly the `tok` segments. -/
def safeSeg (pat : List Char) : List Seg → Bool
  | [] => true
  | .chunk l :: rest => crossFree pat l (flattenSeg pat rest) && safeSeg pat rest
  | .tok :: rest => safeSeg pat rest

/-- On a boundary-safe segment list the replace scan rewrites exactly the
explicit pattern occurrences. -/
theorem listReplace_flattenSeg (pat rep : List Char) (hpat : pat ≠ []) :
    ∀ segs : List Seg, safeSeg pat segs = true →
      listReplace pat rep (flattenSeg pat segs) = renderSeg rep segs := by
  intro segs
  induction segs with
  | nil =>
    intro _
    simp [flattenSeg, renderSeg, listReplace_nil]
  | cons s rest ih =>
    intro h
    cases s with
    | chunk l =>
      simp only [safeSeg, Bool.and_eq_true] at h
      rw [flattenSeg, renderSeg,
        listReplace_append_of_crossFree pat rep l (flattenSeg pat rest) h.1,
        ih h.2]
    | tok =>
      simp only [safeSeg] at h
      rw [flattenSeg, renderSeg, listReplace_pat_prefix pat rep hpat, ih h]

/-- A template part as read from the template file: literal text, the
`STORE_NUMBER` token or the `SUPPORT_MESSAGE` token. -/
inductive TplPart where
  | text (s : String)
  | storeTok
  | msgTok
deriving DecidableEq

/-- The pattern of the first replace pass (line 47 of the source). -/
def storePat : List Char := "STORE_NUMBER".data

/-- The pattern of the second replace pass (line 48 of the source). -/
def msgPat : List Char := "SUPPORT_MESSAGE".data

/-- The template file text described by a part list. -/
def flattenTpl : List TplPart → String
  | [] => ""
  | .text s :: rest => s ++ flattenTpl rest
  | .storeTok :: rest => "STORE_NUMBER" ++ flattenTpl rest
  | .msgTok :: rest => "SUPPORT_MESSAGE" ++ flattenTpl rest

/-- The intended rendering: each token replaced, in place, by the supplied
store number or message. -/
def renderTpl (store_number message : String) : List TplPart → String
  | [] => ""
  | .text s :: rest => s ++ renderTpl store_number message rest
  | .storeTok :: rest => store_number ++ renderTpl store_number message rest
  | .msgTok :: rest => message ++ renderTpl store_number message rest

/-- The template as seen by the first pass (`STORE_NUMBER` replacement):
the `SUPPORT_MESSAGE` token text is ordinary chunk text there. -/
def pass1Segs : List TplPart → List Seg
  | [] => []
  | .text s :: rest => .chunk s.data :: pass1Segs rest
  | .storeTok :: rest => .tok :: pass1Segs rest
  | .msgTok :: rest => .chunk msgPat :: pass1Segs rest

/-- The intermediate text as seen by the second pass (`SUPPORT_MESSAGE`
replacement): the store number has already been substituted in. -/
def pass2Segs (store_number : String) : List TplPart → List Seg
  | [] => []
  | .text s :: rest => .chunk s.data :: pass2Segs store_number rest
  | .storeTok :: rest => .chunk store_number.data :: pass2Segs store_number rest
  | .msgTok :: rest => .tok :: pass2Segs store_number rest

theorem flattenSeg_pass1 (t : List TplPart) :
    flattenSeg storePat (pass1Segs t) = (flattenTpl t).data := by
  induction t with
  | nil => rfl
  | cons p rest ih =>
    cases p <;>
      simp only [pass1Segs, flattenSeg, flattenTpl, String.data_append, ih] <;> rfl

theorem renderSeg_pass1 (store_number : String) (t : List TplPart) :
    renderSeg store_number.data (pass1Segs t) =
      flattenSeg msgPat (pass2Segs store_number t) := by
  induction t with
  | nil => rfl
  | cons p rest ih =>
    cases p <;> simp only [pass1Segs, pass2Segs, renderSeg, flattenSeg, ih]

theorem renderSeg_pass2 (store_number message : String) (t : List TplPart) :
    renderSeg message.data (pass2Segs store_number t) =
      (renderTpl store_number message t).data := by
  induction t with
  | nil => rfl
  | cons p rest ih =>
    cases p <;>
      simp only [pass2Segs, renderSeg, renderTpl, String.data_append, ih]

/-! ## The renderer (`_get_body`, lines 47-49) -/

/-- CPython `s.replace(pat, rep)` on `String` (non-empty `pat`). -/
def pyReplace (s pat rep : String) : String :=
  ⟨listReplace pat.data rep.data s.data⟩

/-- `pat in s` on `String`. -/
def strContains (s pat : String) : Bool :=
  containsSeq pat.data s.data

/-- The pure rendering step of `_get_body` (source lines 47-49):
`template.replace("STORE_NUMBER", store_number).replace("SUPPORT_MESSAGE", message)`. -/
def renderBody (template store_number message : String) : String :=
  pyReplace (pyReplace template "STORE_NUMBER" store_number) "SUPPORT_MESSAGE" message

/-! ## Python `int()` (used on `SMTP_PORT`, line 36)

`int(s)` for a `str` argument: strip ASCII whitespace, accept an optional
sign, then a non-empty digit string in which single underscores may
separate digits.  A failure is a `ValueError`.  (Unicode digits and
non-ASCII space are not modelled; the claims only exercise ASCII.) -/

/-- Characters stripped by `int()` from both ends of the literal. -/
def isPySpace (c : Char) : Bool :=
  c = ' ' || c = '\t' || c = '\n' || c = '\x0d' || c = '\x0b' || c = '\x0c'

/-- A valid digit run for `int()`: non-empty, starts and ends with a
digit, single underscores allowed only between digits. -/
def validDigitRun : List Char → Bool
  | [] => false
  | [c] => c.isDigit
  | c :: '_' :: rest => c.isDigit && validDigitRun rest
  | c :: rest => c.isDigit && validDigitRun rest

/-- Numeric value of a digit run, ignoring underscores. -/
def digitRunVal (cs : List Char) : Nat :=
  cs.foldl (fun acc c => if c = '_' then acc else acc * 10 + (c.toNat - '0'.toNat)) 0

/-- Python `int(s)`: `some n` on success, `none` when `int` would raise
`ValueError`. -/
def pyIntParse (s : String) : Option Int :=
  let cs := ((s.data.dropWhile isPySpace).reverse.dropWhile isPySpace).reverse
  match cs with
  | [] => none
  | c :: rest =>
    let signed : Bool × List Char :=
      if c = '-' then (true, rest) else if c = '+' then (false, rest) else (false, cs)
    if validDigitRun signed.2 then
      some ((if signed.1 then -1 else 1) * (digitRunVal signed.2 : Int))
    else none

/-! ## Exceptions

Python exception values that can arise in this program, with
`isBaseSupportTicketException` playing the role of the
`except BaseSupportTicketException` test in `main` and `pyStr` the role
of `f"{e}"` / `str(e)`. -/

/-- The exception values this program can raise. -/
inductive PyError where
  | keyError (key : String)
  | valueError (msg : String)
  | fileNotFoundError (msg : String)
  | smtpError (msg : String)
  | missingConfiguration (msg : String)
  | ticketCreationError (msg : String)
deriving DecidableEq

/-- Which exceptions the `except BaseSupportTicketException` clause in
`main` (line 86) catches: exactly the two classes the module derives from
`BaseSupportTicketException`. -/
def isBaseSupportTicketException : PyError → Bool
  | .missingConfiguration _ => true
  | .ticketCreationError _ => true
  | _ => false

/-- Python `str(e)`.  `str` of a `KeyError` is the `repr` of its key,
hence the quotes that end up inside the `MissingConfiguration` message. -/
def pyStr : PyError → String
  | .keyError k => "'" ++ k ++ "'"
  | .valueError m => m
  | .fileNotFoundError m => m
  | .smtpError m => m
  | .missingConfiguration m => m
  | .ticketCreationError m => m

/-! ## The environment, the file system and the SMTP server -/

/-- The process environment: variable name to value. -/
def Env : Type := List (String × String)

/-- The file system: path to file contents (a missing path raises
`FileNotFoundError` when opened). -/
def FS : Type := List (String × String)

/-- Outcome oracle for the SMTP session: for each of the three network
steps, `none` means the step succeeds, `some e` means it raises an
exception whose `str` is `e`. -/
structure SmtpWorld where
  connectErr : Option String
  loginErr : Option String
  sendErr : Option String
deriving DecidableEq

/-- Observable side effects, in the order the program performs them. -/
inductive Event where
  | connect (server : String) (port : Int)
  | login (user : String)
  | fileRead (path : String)
  | send
  | close
deriving DecidableEq

/-! ## `SupportTicket` -/

/-- The attributes `__init__` and `_get_env_variables` set on the ticket
object (source lines 25-38). -/
structure Ticket where
  store_number : String
  message : String
  email_address : String
  email_password : String
  smtp_server : String
  smtp_port : Int
  template_file_path : String
  support_team_email : String
deriving DecidableEq

/-- The body of `_get_env_variables` before its `except KeyError` clause
(source lines 33-38): six environment reads in order, `int()` applied to
`SMTP_PORT`.  A missing variable raises `KeyError`; a non-numeric port
raises `ValueError` (with CPython's message). -/
def getEnvVariablesRaw (store_number message : String) (env : Env) :
    Except PyError Ticket :=
  match List.lookup "EMAIL_ADDRESS" env with
  | none => .error (.keyError "EMAIL_ADDRESS")
  | some email_address =>
  match List.lookup "EMAIL_PASSWORD" env with
  | none => .error (.keyError "EMAIL_PASSWORD")
  | some email_password =>
  match List.lookup "SMTP_SERVER" env with
  | none => .error (.keyError "SMTP_SERVER")
  | some smtp_server =>
  match List.lookup "SMTP_PORT" env with
  | none => .error (.keyError "SMTP_PORT")
  | some portStr =>
  match pyIntParse portStr with
  | none => .error (.valueError ("invalid literal for int() with base 10: '" ++ portStr ++ "'"))
  | some smtp_port =>
  match List.lookup "TEMPLATE_FILE_PATH" env with
  | none => .error (.keyError "TEMPLATE_FILE_PATH")
  | some template_file_path =>
  match List.lookup "SUPPORT_TEAM_EMAIL" env with
  | none => .error (.keyError "SUPPORT_TEAM_EMAIL")
  | some support_team_email =>
    .ok { store_number, message, email_address, email_password,
          smtp_server, smtp_port, template_file_path, support_team_email }

/-- `_get_env_variables` (source lines 31-40): the reads above with the
`except KeyError` clause rewrapping a `KeyError` as
`MissingConfiguration(f"Missing configuration variable: {e}")`.  Any
other exception (such as the `ValueError` from `int()`) propagates
unchanged. -/
def getEnvVariables (store_number message : String) (env : Env) :
    Except PyError Ticket :=
  match getEnvVariablesRaw store_number message env with
  | .error (.keyError k) =>
    .error (.missingConfiguration ("Missing configuration variable: '" ++ k ++ "'"))
  | r => r

/-- `SupportTicket.__init__` (source lines 25-29): record the request and
run `_get_env_variables`. -/
def mkSupportTicket (store_number message : String) (env : Env) :
    Except PyError Ticket :=
  getEnvVariables store_number message env

/-- `_get_body` (source lines 42-51): open and read the template file,
then perform the two replacements. -/
def getBody (t : Ticket) (fs : FS) : Except PyError String :=
  match List.lookup t.template_file_path fs with
  | none => .error (.fileNotFoundError
      ("[Errno 2] No such file or directory: '" ++ t.template_file_path ++ "'"))
  | some template => .ok (renderBody template t.store_number t.message)

/-- `_get_subject` (source lines 53-56). -/
def getSubject (t : Ticket) : String :=
  "Request support for store " ++ t.store_number

/-- The `MIMEText` message built by `_get_message`: body text, MIME
subtype, and the `From`, `To` and `Subject` headers. -/
structure MimeTextMessage where
  body : String
  subtype : String
  fromAddr : String
  toAddr : String
  subject : String
deriving DecidableEq

/-- `_get_message` (source lines 58-64): `MIMEText(self._get_body(), "html")`
with the three headers set. -/
def getMessage (t : Ticket) (fs : FS) : Except PyError MimeTextMessage :=
  match getBody t fs with
  | .error e => .error e
  | .ok body =>
    .ok { body, subtype := "html", fromAddr := t.email_address,
          toAddr := t.support_team_email, subject := getSubject t }

/-- `create` (source lines 66-73), with its event trace.  The `with
smtplib.SMTP_SSL(...)` block connects first; `login` runs next; the
argument `self._get_message()` (and hence the template read) is evaluated
before `send_message`; the context manager closes the session on every
exit from the block (not when the connect itself failed).  The `except
Exception` clause rewraps any exception `e` as
`TicketCreationError(f"Unable to send email: {e}")`. -/
def create (t : Ticket) (fs : FS) (w : SmtpWorld) :
    Except PyError Unit × List Event :=
  match w.connectErr with
  | some e =>
    (.error (.ticketCreationError ("Unable to send email: " ++ e)),
     [.connect t.smtp_server t.smtp_port])
  | none =>
  match w.loginErr with
  | some e =>
    (.error (.ticketCreationError ("Unable to send email: " ++ e)),
     [.connect t.smtp_server t.smtp_port, .login t.email_address, .close])
  | none =>
  match getMessage t fs with
  | .error err =>
    (.error (.ticketCreationError ("Unable to send email: " ++ pyStr err)),
     [.connect t.smtp_server t.smtp_port, .login t.email_address,
      .fileRead t.template_file_path, .close])
  | .ok _ =>
  match w.sendErr with
  | some e =>
    (.error (.ticketCreationError ("Unable to send email: " ++ e)),
     [.connect t.smtp_server t.smtp_port, .login t.email_address,
      .fileRead t.template_file_path, .send, .close])
  | none =>
    (.ok (),
     [.connect t.smtp_server t.smtp_port, .login t.email_address,
      .fileRead t.template_file_path, .send, .close])

/-! ## `main` (source lines 76-87) -/

/-- How a process run ends: a normal exit with a status code and the
lines printed to standard output, or termination by an unhandled
exception. -/
inductive Outcome where
  | exited (code : Nat) (stdout : List String)
  | crashed (e : PyError)
deriving DecidableEq

/-- The body of the `try` block in `main` (line 85):
`SupportTicket(args.store_number, args.message).create()`. -/
def ticketPipeline (store_number message : String) (env : Env) (fs : FS)
    (w : SmtpWorld) : Except PyError Unit × List Event :=
  match mkSupportTicket store_number message env with
  | .error e => (.error e, [])
  | .ok t => create t fs w

/-- `main` (source lines 84-87), after a successful parse of the two
positional arguments: run the pipeline; print
`f"Error creating ticket: {e}"` and exit normally on a
`BaseSupportTicketException`; crash on any other exception. -/
def runMain (store_number message : String) (env : Env) (fs : FS)
    (w : SmtpWorld) : Outcome × List Event :=
  match ticketPipeline store_number message env fs w with
  | (.ok _, tr) => (.exited 0 [], tr)
  | (.error e, tr) =>
    if isBaseSupportTicketException e then
      (.exited 0 ["Error creating ticket: " ++ pyStr e], tr)
    else
      (.crashed e, tr)

/-! ## Concrete fixtures used by witnesses and counterexamples -/

/-- All six variables present, `SMTP_PORT` non-numeric. -/
def envBadPort : Env :=
  [("EMAIL_ADDRESS", "a@x"), ("EMAIL_PASSWORD", "pw"), ("SMTP_SERVER", "smtp.x"),
   ("SMTP_PORT", "abc"), ("TEMPLATE_FILE_PATH", "/t.html"), ("SUPPORT_TEAM_EMAIL", "s@x")]

/-- `SMTP_PORT` non-numeric and `TEMPLATE_FILE_PATH` absent. -/
def envMissingTpl : Env :=
  [("EMAIL_ADDRESS", "a@x"), ("EMAIL_PASSWORD", "pw"), ("SMTP_SERVER", "smtp.x"),
   ("SMTP_PORT", "abc"), ("SUPPORT_TEAM_EMAIL", "s@x")]

/-- Only `EMAIL_ADDRESS` present; `EMAIL_PASSWORD` is the first absent
variable. -/
def envMissingPw : Env := [("EMAIL_ADDRESS", "a@x")]

/-- An SMTP server on which connect, login and send all succeed. -/
def allOkWorld : SmtpWorld := ⟨none, none, none⟩

/-- A fully populated ticket whose template path names no file in the
fixture file systems used below. -/
def ticketMissingTpl : Ticket :=
  { store_number := "1", message := "m", email_address := "a@x",
    email_password := "pw", smtp_server := "smtp.x", smtp_port := 465,
    template_file_path := "/missing.html", support_team_email := "s@x" }

/-- A fully populated ticket whose template path is present in
`fsExample`. -/
def ticketGood : Ticket :=
  { store_number := "42", message := "Printer broken", email_address := "a@x",
    email_password := "pw", smtp_server := "smtp.x", smtp_port := 465,
    template_file_path := "/t.html", support_team_email := "s@x" }

/-- A file system holding the spec's example template. -/
def fsExample : FS := [("/t.html", "Store: STORE_NUMBER, Msg: SUPPORT_MESSAGE")]

/-! ## Helper lemmas about `create` -/

/-- Every error escaping `create` is a `TicketCreationError` produced by
the `except Exception` clause on line 72-73. -/
theorem create_error_kind (t : Ticket) (fs : FS) (w : SmtpWorld) (e : PyError)
    (h : (create t fs w).1 = .error e) :
    ∃ cause, e = .ticketCreationError ("Unable to send email: " ++ cause) := by
  unfold create at h
  rcases hce : w.connectErr with _ | ec
  · rcases hle : w.loginErr with _ | el
    · rcases hgm : getMessage t fs with em | m
      · rw [hce, hle, hgm] at h
        exact ⟨pyStr em, (Except.error.inj h).symm⟩
      · rcases hse : w.sendErr with _ | es
        · rw [hce, hle, hgm, hse] at h
          exact Except.noConfusion h
        · rw [hce, hle, hgm, hse] at h
          exact ⟨es, (Except.error.inj h).symm⟩
    · rw [hce, hle] at h
      exact ⟨el, (Except.error.inj h).symm⟩
  · rw [hce] at h
    exact ⟨ec, (Except.error.inj h).symm⟩

/-! ## Claim C9 -/

/-- C9: on the template `"Store: STORE_NUMBER, Msg: SUPPORT_MESSAGE"`
with store number `"42"` and message `"Printer broken"`, the renderer
produces exactly `"Store: 42, Msg: Printer broken"`. -/
theorem c9_concrete_render :
    renderBody "Store: STORE_NUMBER, Msg: SUPPORT_MESSAGE" "42" "Printer broken" =
      "Store: 42, Msg: Printer broken" := by decide

/-! ## Claim C10 -/

/-- The intermediate text of the second pass, for an arbitrary store
number presented as its own segment list `storeSegs` with respect to the
`SUPPORT_MESSAGE` pattern: the first pass has already put a copy of the
store number at every `storeTok` position, so any `SUPPORT_MESSAGE`
occurrence inside the store number is a live pattern occurrence of the
second pass, while the `msgTok` positions still hold the token. -/
def pass2SegsGen (storeSegs : List Seg) : List TplPart → List Seg
  | [] => []
  | .text s :: rest => .chunk s.data :: pass2SegsGen storeSegs rest
  | .storeTok :: rest => storeSegs ++ pass2SegsGen storeSegs rest
  | .msgTok :: rest => .tok :: pass2SegsGen storeSegs rest

theorem flattenSeg_append (pat : List Char) (xs ys : List Seg) :
    flattenSeg pat (xs ++ ys) = flattenSeg pat xs ++ flattenSeg pat ys := by
  induction xs with
  | nil => rfl
  | cons s rest ih => cases s <;> simp [flattenSeg, ih]

theorem renderSeg_append (rep : List Char) (xs ys : List Seg) :
    renderSeg rep (xs ++ ys) = renderSeg rep xs ++ renderSeg rep ys := by
  induction xs with
  | nil => rfl
  | cons s rest ih => cases s <;> simp [renderSeg, ih]

theorem renderSeg_pass1_gen (store_number : String) (storeSegs : List Seg)
    (hst : flattenSeg msgPat storeSegs = store_number.data) (t : List TplPart) :
    renderSeg store_number.data (pass1Segs t) =
      flattenSeg msgPat (pass2SegsGen storeSegs t) := by
  induction t with
  | nil => rfl
  | cons p rest ih =>
    cases p with
    | text s => simp [pass1Segs, pass2SegsGen, renderSeg, flattenSeg, ih]
    | storeTok =>
      simp [pass1Segs, pass2SegsGen, renderSeg, flattenSeg_append, hst, ih]
    | msgTok => simp [pass1Segs, pass2SegsGen, renderSeg, flattenSeg, ih]

theorem renderSeg_pass2_gen (storeSegs : List Seg) (message : String)
    (t : List TplPart) :
    renderSeg message.data (pass2SegsGen storeSegs t) =
      (renderTpl (String.mk (renderSeg message.data storeSegs)) message t).data := by
  induction t with
  | nil => rfl
  | cons p rest ih =>
    cases p with
    | text s => simp [pass2SegsGen, renderSeg, renderTpl, String.data_append, ih]
    | storeTok =>
      simp [pass2SegsGen, renderSeg, renderTpl, String.data_append, renderSeg_append, ih]
    | msgTok => simp [pass2SegsGen, renderSeg, renderTpl, String.data_append, ih]

/-- C10: the renderer substitutes sequentially, `STORE_NUMBER` first and
then `SUPPORT_MESSAGE` over the result.  For every template (presented
as literal text and token occurrences), every store number (presented
with its `SUPPORT_MESSAGE` occurrences located by `storeSegs`) and every
message, under the boundary-safety conditions of the two passes the
rendered body is the template where each `STORE_NUMBER` position holds
the store number with its `SUPPORT_MESSAGE` occurrences themselves
replaced by the message, while each `SUPPORT_MESSAGE` position holds the
message verbatim — the message is never re-scanned, so a `STORE_NUMBER`
token inside it is left in the output untouched. -/
theorem c10_sequential_substitution (t : List TplPart) (storeSegs : List Seg)
    (store_number message : String)
    (hst : flattenSeg msgPat storeSegs = store_number.data)
    (h1 : safeSeg storePat (pass1Segs t) = true)
    (hs2 : safeSeg msgPat storeSegs = true)
    (h2 : safeSeg msgPat (pass2SegsGen storeSegs t) = true) :
    renderBody (flattenTpl t) store_number message =
      renderTpl (pyReplace store_number "SUPPORT_MESSAGE" message) message t := by
  have hstore : pyReplace store_number "SUPPORT_MESSAGE" message =
      String.mk (renderSeg message.data storeSegs) := by
    show String.mk (listReplace msgPat message.data store_number.data) = _
    rw [← hst, listReplace_flattenSeg msgPat message.data (by decide) storeSegs hs2]
  show String.mk (listReplace msgPat message.data
      (listReplace storePat store_number.data (flattenTpl t).data)) = _
  rw [← flattenSeg_pass1 t,
    listReplace_flattenSeg storePat store_number.data (by decide) _ h1,
    renderSeg_pass1_gen store_number storeSegs hst t,
    listReplace_flattenSeg msgPat message.data (by decide) _ h2,
    renderSeg_pass2_gen storeSegs message t,
    hstore]

/-! ## Claim C3 -/

/-- C3 counterexample: with a fully populated configuration whose
template path names no file, and an SMTP server that accepts connect and
login, `create` does fail with a `TicketCreationError` — but a network
connection IS attempted before the failure, contradicting the claim. -/
theorem c3_counterexample :
    (create ticketMissingTpl [] allOkWorld).1 =
      .error (.ticketCreationError
        "Unable to send email: [Errno 2] No such file or directory: '/missing.html'") ∧
    Event.connect "smtp.x" 465 ∈ (create ticketMissingTpl [] allOkWorld).2 := by
  constructor
  · rfl
  · decide

/-- C3 amended: when the template path names no file, `create` fails with
a `TicketCreationError`; however the SMTP connection and the login are
attempted before the template read — when both succeed, the trace is
connect, login, file read, close, so a network connection is attempted
before the failure. -/
theorem c3_amended_missing_template (t : Ticket) (fs : FS) (w : SmtpWorld)
    (hf : List.lookup t.template_file_path fs = none) :
    (∃ m, (create t fs w).1 = .error (.ticketCreationError m)) ∧
    (w.connectErr = none → w.loginErr = none →
      (create t fs w).2 =
        [.connect t.smtp_server t.smtp_port, .login t.email_address,
         .fileRead t.template_file_path, .close]) := by
  have hgm : getMessage t fs = .error (.fileNotFoundError
      ("[Errno 2] No such file or directory: '" ++ t.template_file_path ++ "'")) := by
    simp [getMessage, getBody, hf]
  constructor
  · rcases hce : w.connectErr with _ | ec
    · rcases hle : w.loginErr with _ | el
      · exact ⟨"Unable to send email: " ++
            ("[Errno 2] No such file or directory: '" ++ t.template_file_path ++ "'"),
          by simp [create, hce, hle, hgm, pyStr]⟩
      · exact ⟨"Unable to send email: " ++ el, by simp [create, hce, hle]⟩
    · exact ⟨"Unable to send email: " ++ ec, by simp [create, hce]⟩
  · intro hce hle
    simp [create, hce, hle, hgm]

/-- C3 amended, witnessed on the fixtures: the hypotheses hold and the
conclusion evaluates on concrete inputs. -/
theorem c3_amended_witness :
    (∃ m, (create ticketMissingTpl [] allOkWorld).1 = .error (.ticketCreationError m)) ∧
    (allOkWorld.connectErr = none → allOkWorld.loginErr = none →
      (create ticketMissingTpl [] allOkWorld).2 =
        [.connect ticketMissingTpl.smtp_server ticketMissingTpl.smtp_port,
         .login ticketMissingTpl.email_address,
         .fileRead ticketMissingTpl.template_file_path, .close]) :=
  c3_amended_missing_template ticketMissingTpl [] allOkWorld rfl

/-! ## Claim C6 -/

/-- C6: every failure escaping `create` — connect, authentication,
template read or send — reaches the caller as a `TicketCreationError`
whose message carries the underlying cause's description; the error kind
does not distinguish the failing stage. -/
theorem c6_uniform_error_kind (t : Ticket) (fs : FS) (w : SmtpWorld) (e : PyError)
    (h : (create t fs w).1 = .error e) :
    ∃ cause, e = .ticketCreationError ("Unable to send email: " ++ cause) :=
  create_error_kind t fs w e h

/-- C6 witnessed on an authentication failure. -/
theorem c6_uniform_error_kind_witness :
    ∃ cause, (PyError.ticketCreationError "Unable to send email: 535 authentication failed") =
      .ticketCreationError ("Unable to send email: " ++ cause) :=
  c6_uniform_error_kind ticketMissingTpl [] ⟨none, some "535 authentication failed", none⟩
    (.ticketCreationError "Unable to send email: 535 authentication failed") rfl

/-! ## Claim C7 -/

/-- C7: any `BaseSupportTicketException` raised by the pipeline is caught
by `main`, which prints exactly the one line
`Error creating ticket: <description>` to standard output and exits
normally with status 0. -/
theorem c7_handled_error_prints (store_number message : String) (env : Env)
    (fs : FS) (w : SmtpWorld) (e : PyError)
    (h : (ticketPipeline store_number message env fs w).1 = .error e)
    (hb : isBaseSupportTicketException e = true) :
    (runMain store_number message env fs w).1 =
      .exited 0 ["Error creating ticket: " ++ pyStr e] := by
  rcases hp : ticketPipeline store_number message env fs w with ⟨r, tr⟩
  rw [hp] at h
  simp only at h
  subst h
  simp [runMain, hp, hb]

/-- C7 witnessed on a missing `EMAIL_PASSWORD`. -/
theorem c7_handled_error_prints_witness :
    (runMain "1" "m" envMissingPw [] allOkWorld).1 =
      .exited 0 ["Error creating ticket: " ++
        pyStr (.missingConfiguration "Missing configuration variable: 'EMAIL_PASSWORD'")] :=
  c7_handled_error_prints "1" "m" envMissingPw [] allOkWorld
    (.missingConfiguration "Missing configuration variable: 'EMAIL_PASSWORD'") rfl rfl

/-! ## Claim C8 -/

/-- C8: with the template file present, `_get_message` deterministically
builds the message with HTML body subtype, `From` the configured address,
`To` the support-team address, `Subject`
`Request support for store {store_number}`, and the rendered body — a
pure function of the configuration, the request and the file contents. -/
theorem c8_message_fields (t : Ticket) (fs : FS) (template : String)
    (h : List.lookup t.template_file_path fs = some template) :
    getMessage t fs = .ok
      { body := renderBody template t.store_number t.message,
        subtype := "html",
        fromAddr := t.email_address,
        toAddr := t.support_team_email,
        subject := "Request support for store " ++ t.store_number } := by
  simp [getMessage, getBody, getSubject, h]

/-- C8 witnessed on the example fixtures. -/
theorem c8_message_fields_witness :
    getMessage ticketGood fsExample = .ok
      { body := renderBody "Store: STORE_NUMBER, Msg: SUPPORT_MESSAGE"
          ticketGood.store_number ticketGood.message,
        subtype := "html",
        fromAddr := ticketGood.email_address,
        toAddr := ticketGood.support_team_email,
        subject := "Request support for store " ++ ticketGood.store_number } :=
  c8_message_fields ticketGood fsExample "Store: STORE_NUMBER, Msg: SUPPORT_MESSAGE" rfl

/-! ## Claim C1 -/

/-- C1 counterexample: with template `"SUPPORT_MESSAGE"`, store number
`"7"` and message `"STORE_NUMBER"`, the rendered body is exactly the
string `"STORE_NUMBER"` — it contains an occurrence of the literal token
`STORE_NUMBER`, so the body does not contain zero occurrences of the
tokens for every template, store number and message. -/
theorem c1_counterexample :
    renderBody "SUPPORT_MESSAGE" "7" "STORE_NUMBER" = "STORE_NUMBER" ∧
    strContains (renderBody "SUPPORT_MESSAGE" "7" "STORE_NUMBER") "STORE_NUMBER" = true := by
  constructor
  · decide
  · decide

/-- The spec's example template, structured: literal `"Store: "`, the
`STORE_NUMBER` token, literal `", Msg: "`, the `SUPPORT_MESSAGE` token. -/
def tplExample : List TplPart :=
  [.text "Store: ", .storeTok, .text ", Msg: ", .msgTok]

/-- C1 amended: for a template given as literal text and token
occurrences, when neither replace pass can match its pattern starting
inside literal text or substituted text (the two `safeSeg` boundary
conditions — they fail exactly when the store number or message
reintroduces a token, or a token occurrence is formed across a
boundary), the rendered body is the template with the supplied store
number and message exactly where the tokens occurred; consequently the
body is free of both literal tokens whenever that exact substitution is. -/
theorem c1_amended_exact_substitution (t : List TplPart) (store_number message : String)
    (h1 : safeSeg storePat (pass1Segs t) = true)
    (h2 : safeSeg msgPat (pass2Segs store_number t) = true) :
    renderBody (flattenTpl t) store_number message = renderTpl store_number message t ∧
    (strContains (renderTpl store_number message t) "STORE_NUMBER" = false →
      strContains (renderBody (flattenTpl t) store_number message) "STORE_NUMBER" = false) ∧
    (strContains (renderTpl store_number message t) "SUPPORT_MESSAGE" = false →
      strContains (renderBody (flattenTpl t) store_number message) "SUPPORT_MESSAGE" = false) := by
  have key : renderBody (flattenTpl t) store_number message =
      renderTpl store_number message t := by
    show String.mk (listReplace msgPat message.data
        (listReplace storePat store_number.data (flattenTpl t).data)) =
      renderTpl store_number message t
    rw [← flattenSeg_pass1 t,
      listReplace_flattenSeg storePat store_number.data (by decide) _ h1,
      renderSeg_pass1 store_number t,
      listReplace_flattenSeg msgPat message.data (by decide) _ h2,
      renderSeg_pass2 store_number message t]
  refine ⟨key, ?_, ?_⟩
  · intro h
    rw [key]
    exact h
  · intro h
    rw [key]
    exact h

/-- C1 amended, witnessed on the spec's example: the boundary conditions
hold and the substitution is exact and token-free. -/
theorem c1_amended_exact_substitution_witness :
    renderBody (flattenTpl tplExample) "42" "Printer broken" =
      renderTpl "42" "Printer broken" tplExample ∧
    (strContains (renderTpl "42" "Printer broken" tplExample) "STORE_NUMBER" = false →
      strContains (renderBody (flattenTpl tplExample) "42" "Printer broken")
        "STORE_NUMBER" = false) ∧
    (strContains (renderTpl "42" "Printer broken" tplExample) "SUPPORT_MESSAGE" = false →
      strContains (renderBody (flattenTpl tplExample) "42" "Printer broken")
        "SUPPORT_MESSAGE" = false) :=
  c1_amended_exact_substitution tplExample "42" "Printer broken" (by decide) (by decide)

/-! ## Claim C2 -/

/-- C2 counterexample: with every variable present but `SMTP_PORT` set to
`"abc"`, `_get_env_variables` fails with the `ValueError` from `int()` —
not with `MissingConfiguration` — because the `except` clause on line 39
catches only `KeyError`. -/
theorem c2_counterexample :
    getEnvVariables "1" "m" envBadPort =
      .error (.valueError "invalid literal for int() with base 10: 'abc'") ∧
    ∀ s, getEnvVariables "1" "m" envBadPort ≠ .error (.missingConfiguration s) := by
  constructor
  · rfl
  · intro s h
    rw [show getEnvVariables "1" "m" envBadPort =
        .error (.valueError "invalid literal for int() with base 10: 'abc'") from rfl] at h
    exact PyError.noConfusion (Except.error.inj h)

/-- C2 amended: when the first three variables are present and
`SMTP_PORT` is present but non-numeric, configuration loading fails
deterministically with an uncaught `ValueError` — which is not of the
`BaseSupportTicketException` kind, so it is not a configuration error in
the program's taxonomy and crashes `main` — and delivery is never
reached: the run performs no file or network event. -/
theorem c2_amended_value_error (env : Env) (a b c v : String)
    (h1 : List.lookup "EMAIL_ADDRESS" env = some a)
    (h2 : List.lookup "EMAIL_PASSWORD" env = some b)
    (h3 : List.lookup "SMTP_SERVER" env = some c)
    (h4 : List.lookup "SMTP_PORT" env = some v)
    (h5 : pyIntParse v = none) :
    ∀ store_number message fs w,
      mkSupportTicket store_number message env =
        .error (.valueError ("invalid literal for int() with base 10: '" ++ v ++ "'")) ∧
      isBaseSupportTicketException
        (.valueError ("invalid literal for int() with base 10: '" ++ v ++ "'")) = false ∧
      runMain store_number message env fs w =
        (.crashed (.valueError ("invalid literal for int() with base 10: '" ++ v ++ "'")), []) := by
  intro store_number message fs w
  have hmk : mkSupportTicket store_number message env =
      .error (.valueError ("invalid literal for int() with base 10: '" ++ v ++ "'")) := by
    simp [mkSupportTicket, getEnvVariables, getEnvVariablesRaw, h1, h2, h3, h4, h5]
  refine ⟨hmk, rfl, ?_⟩
  simp [runMain, ticketPipeline, hmk, isBaseSupportTicketException]

/-- C2 amended, witnessed on `envBadPort`. -/
theorem c2_amended_value_error_witness :
    mkSupportTicket "1" "m" envBadPort =
      .error (.valueError ("invalid literal for int() with base 10: '" ++ "abc" ++ "'")) ∧
    isBaseSupportTicketException
      (.valueError ("invalid literal for int() with base 10: '" ++ "abc" ++ "'")) = false ∧
    runMain "1" "m" envBadPort [] allOkWorld =
      (.crashed (.valueError ("invalid literal for int() with base 10: '" ++ "abc" ++ "'")), []) :=
  c2_amended_value_error envBadPort "a@x" "pw" "smtp.x" "abc" rfl rfl rfl rfl rfl
    "1" "m" [] allOkWorld

/-! ## Helper: the errors construction can produce -/

/-- Every error escaping `SupportTicket.__init__` is either the
`MissingConfiguration` produced by the `except KeyError` clause, or the
uncaught `ValueError` from `int()` on a present but non-numeric
`SMTP_PORT` (which `int()` reaches only once the first three variables
were read successfully). -/
theorem mkSupportTicket_error_cases (store_number message : String) (env : Env)
    (e : PyError) (h : mkSupportTicket store_number message env = .error e) :
    (∃ k, e = .missingConfiguration ("Missing configuration variable: '" ++ k ++ "'")) ∨
    (∃ v, List.lookup "SMTP_PORT" env = some v ∧ pyIntParse v = none ∧
      (∃ a, List.lookup "EMAIL_ADDRESS" env = some a) ∧
      (∃ b, List.lookup "EMAIL_PASSWORD" env = some b) ∧
      (∃ c, List.lookup "SMTP_SERVER" env = some c) ∧
      e = .valueError ("invalid literal for int() with base 10: '" ++ v ++ "'")) := by
  rcases hl1 : List.lookup "EMAIL_ADDRESS" env with _ | a
  · have hmk : mkSupportTicket store_number message env = .error
        (.missingConfiguration ("Missing configuration variable: '" ++ "EMAIL_ADDRESS" ++ "'")) := by
      simp [mkSupportTicket, getEnvVariables, getEnvVariablesRaw, hl1]
    rw [h] at hmk
    exact Or.inl ⟨"EMAIL_ADDRESS", Except.error.inj hmk⟩
  · rcases hl2 : List.lookup "EMAIL_PASSWORD" env with _ | b
    · have hmk : mkSupportTicket store_number message env = .error
          (.missingConfiguration ("Missing configuration variable: '" ++ "EMAIL_PASSWORD" ++ "'")) := by
        simp [mkSupportTicket, getEnvVariables, getEnvVariablesRaw, hl1, hl2]
      rw [h] at hmk
      exact Or.inl ⟨"EMAIL_PASSWORD", Except.error.inj hmk⟩
    · rcases hl3 : List.lookup "SMTP_SERVER" env with _ | c
      · have hmk : mkSupportTicket store_number message env = .error
            (.missingConfiguration ("Missing configuration variable: '" ++ "SMTP_SERVER" ++ "'")) := by
          simp [mkSupportTicket, getEnvVariables, getEnvVariablesRaw, hl1, hl2, hl3]
        rw [h] at hmk
        exact Or.inl ⟨"SMTP_SERVER", Except.error.inj hmk⟩
      · rcases hl4 : List.lookup "SMTP_PORT" env with _ | v
        · have hmk : mkSupportTicket store_number message env = .error
              (.missingConfiguration ("Missing configuration variable: '" ++ "SMTP_PORT" ++ "'")) := by
            simp [mkSupportTicket, getEnvVariables, getEnvVariablesRaw, hl1, hl2, hl3, hl4]
          rw [h] at hmk
          exact Or.inl ⟨"SMTP_PORT", Except.error.inj hmk⟩
        · rcases hp : pyIntParse v with _ | n
          · have hmk : mkSupportTicket store_number message env = .error
                (.valueError ("invalid literal for int() with base 10: '" ++ v ++ "'")) := by
              simp [mkSupportTicket, getEnvVariables, getEnvVariablesRaw,
                hl1, hl2, hl3, hl4, hp]
            rw [h] at hmk
            exact Or.inr ⟨v, rfl, hp, ⟨a, rfl⟩, ⟨b, rfl⟩, ⟨c, rfl⟩, Except.error.inj hmk⟩
          · rcases hl5 : List.lookup "TEMPLATE_FILE_PATH" env with _ | tp
            · have hmk : mkSupportTicket store_number message env = .error
                  (.missingConfiguration
                    ("Missing configuration variable: '" ++ "TEMPLATE_FILE_PATH" ++ "'")) := by
                simp [mkSupportTicket, getEnvVariables, getEnvVariablesRaw,
                  hl1, hl2, hl3, hl4, hp, hl5]
              rw [h] at hmk
              exact Or.inl ⟨"TEMPLATE_FILE_PATH", Except.error.inj hmk⟩
            · rcases hl6 : List.lookup "SUPPORT_TEAM_EMAIL" env with _ | se
              · have hmk : mkSupportTicket store_number message env = .error
                    (.missingConfiguration
                      ("Missing configuration variable: '" ++ "SUPPORT_TEAM_EMAIL" ++ "'")) := by
                  simp [mkSupportTicket, getEnvVariables, getEnvVariablesRaw,
                    hl1, hl2, hl3, hl4, hp, hl5, hl6]
                rw [h] at hmk
                exact Or.inl ⟨"SUPPORT_TEAM_EMAIL", Except.error.inj hmk⟩
              · have hmk : mkSupportTicket store_number message env = .ok
                    { store_number, message, email_address := a, email_password := b,
                      smtp_server := c, smtp_port := n, template_file_path := tp,
                      support_team_email := se } := by
                  simp [mkSupportTicket, getEnvVariables, getEnvVariablesRaw,
                    hl1, hl2, hl3, hl4, hp, hl5, hl6]
                rw [h] at hmk
                exact Except.noConfusion hmk

/-! ## Claim C4 -/

/-- C4 counterexample: with all six variables present but `SMTP_PORT`
non-numeric, the run terminates with an unhandled `ValueError` — `main`
catches only `BaseSupportTicketException`, so not every error raised
during ticket creation is converted to a printed diagnostic. -/
theorem c4_counterexample :
    (runMain "1" "help" envBadPort [] allOkWorld).1 =
      .crashed (.valueError "invalid literal for int() with base 10: 'abc'") := rfl

/-- C4 amended: for every pair of arguments and every environment in
which `SMTP_PORT`, whenever it is present and the three variables read
before it are present, parses as an integer, the run never terminates
with an unhandled exception: it exits normally with status 0. -/
theorem c4_amended_no_crash (store_number message : String) (env : Env) (fs : FS)
    (w : SmtpWorld)
    (hport : ∀ a b c v, List.lookup "EMAIL_ADDRESS" env = some a →
      List.lookup "EMAIL_PASSWORD" env = some b →
      List.lookup "SMTP_SERVER" env = some c →
      List.lookup "SMTP_PORT" env = some v → (pyIntParse v).isSome = true) :
    ∃ out, (runMain store_number message env fs w).1 = .exited 0 out := by
  rcases hmk : mkSupportTicket store_number message env with e | t
  · rcases mkSupportTicket_error_cases store_number message env e hmk with
      ⟨k, hk⟩ | ⟨v, hv1, hv2, ⟨a, ha⟩, ⟨b, hb⟩, ⟨c, hc⟩, _⟩
    · subst hk
      refine ⟨["Error creating ticket: " ++
        ("Missing configuration variable: '" ++ k ++ "'")], ?_⟩
      simp [runMain, ticketPipeline, hmk, isBaseSupportTicketException, pyStr]
    · have := hport a b c v ha hb hc hv1
      rw [hv2] at this
      exact absurd this (by simp)
  · rcases hcr : create t fs w with ⟨r, tr⟩
    rcases r with e | u
    · have hek : (create t fs w).1 = .error e := by rw [hcr]
      obtain ⟨cause, hcause⟩ := create_error_kind t fs w e hek
      subst hcause
      refine ⟨["Error creating ticket: " ++ ("Unable to send email: " ++ cause)], ?_⟩
      simp [runMain, ticketPipeline, hmk, hcr, isBaseSupportTicketException, pyStr]
    · refine ⟨[], ?_⟩
      simp [runMain, ticketPipeline, hmk, hcr]

/-- All six variables present and well formed. -/
def envGoodPort : Env :=
  [("EMAIL_ADDRESS", "a@x"), ("EMAIL_PASSWORD", "pw"), ("SMTP_SERVER", "smtp.x"),
   ("SMTP_PORT", "465"), ("TEMPLATE_FILE_PATH", "/t.html"), ("SUPPORT_TEAM_EMAIL", "s@x")]

/-- C4 amended, witnessed on a fully valid environment. -/
theorem c4_amended_no_crash_witness :
    ∃ out, (runMain "42" "Printer broken" envGoodPort fsExample allOkWorld).1 =
      .exited 0 out :=
  c4_amended_no_crash "42" "Printer broken" envGoodPort fsExample allOkWorld
    (by
      intro a b c v _ _ _ h4
      rw [show List.lookup "SMTP_PORT" envGoodPort = some "465" from rfl] at h4
      injection h4 with hv
      subst hv
      decide)

/-! ## Claim C5 -/

/-- The six required variables in the order `_get_env_variables` reads
them (source lines 33-38). -/
def requiredVars : List String :=
  ["EMAIL_ADDRESS", "EMAIL_PASSWORD", "SMTP_SERVER", "SMTP_PORT",
   "TEMPLATE_FILE_PATH", "SUPPORT_TEAM_EMAIL"]

/-- The first required variable absent from the environment, in reading
order. -/
def firstMissing (env : Env) : Option String :=
  requiredVars.find? fun k => (List.lookup k env).isNone

/-- C5 counterexample: in `envMissingTpl` the variable
`TEMPLATE_FILE_PATH` is absent, yet construction does not fail with a
`MissingConfiguration` — the non-numeric `SMTP_PORT` read before it
raises an uncaught `ValueError` first. -/
theorem c5_counterexample :
    List.lookup "TEMPLATE_FILE_PATH" envMissingTpl = none ∧
    ∀ s, mkSupportTicket "1" "m" envMissingTpl ≠ .error (.missingConfiguration s) := by
  constructor
  · rfl
  · intro s h
    rw [show mkSupportTicket "1" "m" envMissingTpl =
        .error (.valueError "invalid literal for int() with base 10: 'abc'") from rfl] at h
    exact PyError.noConfusion (Except.error.inj h)

/-- C5 amended: when at least one required variable is absent and
`SMTP_PORT`, whenever it is present and preceded by the first three
variables being present, parses as an integer, construction fails with
`MissingConfiguration` naming the first absent variable in reading
order, and the run performs no template-file read or network access. -/
theorem c5_amended_first_missing (store_number message : String) (env : Env)
    (name : String) (hfm : firstMissing env = some name)
    (hport : ∀ a b c v, List.lookup "EMAIL_ADDRESS" env = some a →
      List.lookup "EMAIL_PASSWORD" env = some b →
      List.lookup "SMTP_SERVER" env = some c →
      List.lookup "SMTP_PORT" env = some v → (pyIntParse v).isSome = true) :
    mkSupportTicket store_number message env =
      .error (.missingConfiguration ("Missing configuration variable: '" ++ name ++ "'")) ∧
    ∀ fs w, runMain store_number message env fs w =
      (.exited 0 ["Error creating ticket: " ++
        ("Missing configuration variable: '" ++ name ++ "'")], []) := by
  have hmk : mkSupportTicket store_number message env =
      .error (.missingConfiguration ("Missing configuration variable: '" ++ name ++ "'")) := by
    rcases hl1 : List.lookup "EMAIL_ADDRESS" env with _ | a
    · have hname : name = "EMAIL_ADDRESS" := by
        simp [firstMissing, requiredVars, List.find?, hl1] at hfm
        exact hfm.symm
      subst hname
      simp [mkSupportTicket, getEnvVariables, getEnvVariablesRaw, hl1]
    · rcases hl2 : List.lookup "EMAIL_PASSWORD" env with _ | b
      · have hname : name = "EMAIL_PASSWORD" := by
          simp [firstMissing, requiredVars, List.find?, hl1, hl2] at hfm
          exact hfm.symm
        subst hname
        simp [mkSupportTicket, getEnvVariables, getEnvVariablesRaw, hl1, hl2]
      · rcases hl3 : List.lookup "SMTP_SERVER" env with _ | c
        · have hname : name = "SMTP_SERVER" := by
            simp [firstMissing, requiredVars, List.find?, hl1, hl2, hl3] at hfm
            exact hfm.symm
          subst hname
          simp [mkSupportTicket, getEnvVariables, getEnvVariablesRaw, hl1, hl2, hl3]
        · rcases hl4 : List.lookup "SMTP_PORT" env with _ | v
          · have hname : name = "SMTP_PORT" := by
              simp [firstMissing, requiredVars, List.find?, hl1, hl2, hl3, hl4] at hfm
              exact hfm.symm
            subst hname
            simp [mkSupportTicket, getEnvVariables, getEnvVariablesRaw, hl1, hl2, hl3, hl4]
          · obtain ⟨n, hn⟩ := Option.isSome_iff_exists.mp (hport a b c v hl1 hl2 hl3 hl4)
            rcases hl5 : List.lookup "TEMPLATE_FILE_PATH" env with _ | tp
            · have hname : name = "TEMPLATE_FILE_PATH" := by
                simp [firstMissing, requiredVars, List.find?,
                  hl1, hl2, hl3, hl4, hl5] at hfm
                exact hfm.symm
              subst hname
              simp [mkSupportTicket, getEnvVariables, getEnvVariablesRaw,
                hl1, hl2, hl3, hl4, hn, hl5]
            · rcases hl6 : List.lookup "SUPPORT_TEAM_EMAIL" env with _ | se
              · have hname : name = "SUPPORT_TEAM_EMAIL" := by
                  simp [firstMissing, requiredVars, List.find?,
                    hl1, hl2, hl3, hl4, hl5, hl6] at hfm
                  exact hfm.symm
                subst hname
                simp [mkSupportTicket, getEnvVariables, getEnvVariablesRaw,
                  hl1, hl2, hl3, hl4, hn, hl5, hl6]
              · exact absurd hfm (by
                  simp [firstMissing, requiredVars, List.find?,
                    hl1, hl2, hl3, hl4, hl5, hl6])
  refine ⟨hmk, ?_⟩
  intro fs w
  simp [runMain, ticketPipeline, hmk, isBaseSupportTicketException, pyStr]

/-- C5 amended, witnessed on an environment whose first absent variable
is `EMAIL_PASSWORD`. -/
theorem c5_amended_first_missing_witness :
    mkSupportTicket "1" "m" envMissingPw =
      .error (.missingConfiguration
        ("Missing configuration variable: '" ++ "EMAIL_PASSWORD" ++ "'")) ∧
    runMain "1" "m" envMissingPw [] allOkWorld =
      (.exited 0 ["Error creating ticket: " ++
        ("Missing configuration variable: '" ++ "EMAIL_PASSWORD" ++ "'")], []) := by
  have h := c5_amended_first_missing "1" "m" envMissingPw "EMAIL_PASSWORD" rfl
    (by
      intro a b c v _ h2 _ _
      rw [show List.lookup "EMAIL_PASSWORD" envMissingPw = none from rfl] at h2
      exact Option.noConfusion h2)
  exact ⟨h.1, h.2 [] allOkWorld⟩

/-- C10, witnessed on the spec's example template with a store number
that is itself the `SUPPORT_MESSAGE` token (so the message replaces it)
and a message containing the `STORE_NUMBER` token (which survives). -/
theorem c10_sequential_substitution_witness :
    renderBody (flattenTpl tplExample) "SUPPORT_MESSAGE" "note STORE_NUMBER here" =
      renderTpl (pyReplace "SUPPORT_MESSAGE" "SUPPORT_MESSAGE" "note STORE_NUMBER here")
        "note STORE_NUMBER here" tplExample :=
  c10_sequential_substitution tplExample [Seg.tok] "SUPPORT_MESSAGE"
    "note STORE_NUMBER here" (by decide) (by decide) (by decide) (by decide)
